import Mathlib

/-!
Verification of the variant ingestion / numbering / export pipeline of
`app/routers/scoresets.py` (mavedb-api).

The Python source is shallowly embedded: pure helpers become Lean functions,
the SQLAlchemy session (autocommit=False, autoflush=False) becomes explicit
state passing in which all writes are buffered until `commit`, pandas tables
become explicit column-oriented structures, and Python exceptions become
`Except` values.
-/

/-! ### Python string primitives (ASCII fragment)

`str.strip()`, `str.lower()`, `str.upper()`, `str.capitalize()` restricted to
ASCII, which covers every token vocabulary the pipeline compares against.
-/

/-- Python whitespace (`\s` for ASCII): space, tab, newline, CR, VT, FF. -/
def pyIsSpace (c : Char) : Bool :=
  c = ' ' || c = '\t' || c = '\n' || c = '\r' || c = '\x0b' || c = '\x0c'

/-- The 26 ASCII upper/lower case letter pairs. -/
def asciiCase : List (Char × Char) :=
  [('A', 'a'), ('B', 'b'), ('C', 'c'), ('D', 'd'), ('E', 'e'), ('F', 'f'),
   ('G', 'g'), ('H', 'h'), ('I', 'i'), ('J', 'j'), ('K', 'k'), ('L', 'l'),
   ('M', 'm'), ('N', 'n'), ('O', 'o'), ('P', 'p'), ('Q', 'q'), ('R', 'r'),
   ('S', 's'), ('T', 't'), ('U', 'u'), ('V', 'v'), ('W', 'w'), ('X', 'x'),
   ('Y', 'y'), ('Z', 'z')]

/-- Python `c.lower()` for a single character (ASCII). -/
def pyLowerChar (c : Char) : Char :=
  match asciiCase.find? (fun p => p.1 = c) with
  | some p => p.2
  | none => c

/-- Python `c.upper()` for a single character (ASCII). -/
def pyUpperChar (c : Char) : Char :=
  match asciiCase.find? (fun p => p.2 = c) with
  | some p => p.1
  | none => c

/-- Python `s.strip()` on a character list: drop leading and trailing whitespace. -/
def pyStrip (l : List Char) : List Char :=
  ((l.dropWhile pyIsSpace).reverse.dropWhile pyIsSpace).reverse

/-- Python `s.strip()` on strings. -/
def pyStripStr (s : String) : String := ⟨pyStrip s.data⟩

/-- Python `s.lower()` on strings. -/
def pyLowerStr (s : String) : String := ⟨s.data.map pyLowerChar⟩

/-- Python `s.upper()` on strings. -/
def pyUpperStr (s : String) : String := ⟨s.data.map pyUpperChar⟩

/-- Python `s.capitalize()` on strings: first character uppercased, rest lowercased. -/
def pyCapitalizeStr (s : String) : String :=
  match s.data with
  | [] => ""
  | c :: cs => ⟨pyUpperChar c :: cs.map pyLowerChar⟩

/-! ### The Null Normalizer (`is_null`, scoresets.py lines 36-45) -/

/-- The literal alternatives of `null_values_re` other than `\s+`:
`none|nan|na|undefined|n/a|null|nil`. -/
def nullSpellings : List String :=
  ["none", "nan", "na", "undefined", "n/a", "null", "nil"]

/-- The regex test `null_values_re.fullmatch(v)` where
`null_values_re = re.compile(r'\s+|none|nan|na|undefined|n/a|null|nil', re.IGNORECASE)`:
the whole string is whitespace, or (case-insensitively) one of the spellings. -/
def nullRegexFullmatch (v : String) : Bool :=
  (!v.data.isEmpty && v.data.all pyIsSpace) || nullSpellings.contains (pyLowerStr v)

/-- The regex test `null_values_re.search(v)` (used by `DataFrame.replace` with a non-string
replacement value): some whitespace character occurs in the string, or one of
the spellings occurs (case-insensitively) as a contiguous substring. -/
def hasSubstr (needle hay : List Char) : Bool :=
  match hay with
  | [] => needle.isEmpty
  | _ :: t => needle.isPrefixOf hay || hasSubstr needle t

def nullRegexSearch (v : String) : Bool :=
  let w := pyLowerStr v
  w.data.any pyIsSpace || nullSpellings.any (fun sp => hasSubstr sp.data w.data)

/-- The function `is_null` (scoresets.py lines 42-45):
`value = str(value).strip().lower(); return null_values_re.fullmatch(value) or not value`. -/
def is_null (s : String) : Bool :=
  let value := pyLowerStr (pyStripStr s)
  nullRegexFullmatch value || value.data.isEmpty

/-! ### Supporting lemmas about the string primitives -/

theorem pyLowerChar_isSpace (c : Char) : pyIsSpace (pyLowerChar c) = pyIsSpace c := by
  unfold pyLowerChar
  cases h : asciiCase.find? (fun p => p.1 = c) with
  | none => rfl
  | some p =>
    have hmem : p ∈ asciiCase := List.mem_of_find?_eq_some h
    have hc' : p.1 = c := by simpa using List.find?_some h
    have hall : ∀ q ∈ asciiCase, pyIsSpace q.2 = false ∧ pyIsSpace q.1 = false := by decide
    rcases hall p hmem with ⟨h2, h1⟩
    rw [h2, ← hc', h1]

theorem dropWhile_head_false (p : Char → Bool) :
    ∀ (l : List Char) c cs, l.dropWhile p = c :: cs → p c = false := by
  intro l
  induction l with
  | nil => intro c cs h; simp [List.dropWhile] at h
  | cons a as ih =>
    intro c cs h
    by_cases hp : p a
    · rw [List.dropWhile_cons_of_pos hp] at h
      exact ih c cs h
    · rw [List.dropWhile_cons_of_neg hp] at h
      cases h
      exact Bool.of_not_eq_true hp

/-- A stripped string is never a nonempty run of whitespace. -/
theorem pyStrip_not_all_space (l : List Char) (hne : pyStrip l ≠ []) :
    ¬ ((pyStrip l).map pyLowerChar).all pyIsSpace = true := by
  intro hall
  unfold pyStrip at hne hall
  set d := ((l.dropWhile pyIsSpace).reverse).dropWhile pyIsSpace with hd
  cases hcase : d with
  | nil => rw [hcase] at hne; simp at hne
  | cons c cs =>
    have hc : pyIsSpace c = false := dropWhile_head_false pyIsSpace _ c cs hcase
    have hcmem : c ∈ d.reverse := by rw [hcase]; simp
    have : pyIsSpace (pyLowerChar c) = true := by
      have := List.all_eq_true.mp hall (pyLowerChar c) (List.mem_map_of_mem pyLowerChar hcmem)
      exact this
    rw [pyLowerChar_isSpace] at this
    rw [hc] at this
    exact Bool.false_ne_true this

/-! ### Claim C8 -/

/-- Claim C8. For every string token, `is_null` returns true iff, after trimming
surrounding whitespace and ignoring case, the token is the empty string or one
of the literal spellings `none`, `nan`, `na`, `undefined`, `n/a`, `null`,
`nil`.  (The `\s+` alternative of the regex can never fully match a stripped
string, so it adds nothing.)  `is_null` is a plain function of its argument. -/
theorem is_null_characterization (s : String) :
    is_null s = true ↔
      (pyLowerStr (pyStripStr s) = "" ∨ pyLowerStr (pyStripStr s) ∈ nullSpellings) := by
  unfold is_null nullRegexFullmatch
  constructor
  · intro h
    rcases Bool.or_eq_true_iff.mp h with h1 | h1
    · rcases Bool.or_eq_true_iff.mp h1 with h2 | h2
      · exfalso
        have hne : pyStrip s.data ≠ [] := by
          intro hnil
          have : (pyLowerStr (pyStripStr s)).data.isEmpty = true := by
            simp [pyLowerStr, pyStripStr, hnil]
          rw [Bool.and_eq_true] at h2
          rw [Bool.not_eq_true'] at h2
          exact absurd this (by rw [h2.1]; simp)
        apply pyStrip_not_all_space s.data hne
        rw [Bool.and_eq_true] at h2
        have : (pyLowerStr (pyStripStr s)).data = (pyStrip s.data).map pyLowerChar := by
          simp [pyLowerStr, pyStripStr]
        rw [this] at h2
        exact h2.2
      · right
        have hl : pyLowerStr (pyLowerStr (pyStripStr s)) = pyLowerStr (pyStripStr s) := by
          apply String.ext
          simp only [pyLowerStr, List.map_map]
          apply List.map_congr_left
          intro c _
          show pyLowerChar (pyLowerChar c) = pyLowerChar c
          unfold pyLowerChar
          cases h : asciiCase.find? (fun p => p.1 = c) with
          | none => simp [h]
          | some p =>
            have hmem : p ∈ asciiCase := List.mem_of_find?_eq_some h
            have hidem : ∀ q ∈ asciiCase, asciiCase.find? (fun r => r.1 = q.2) = none := by
              decide
            simp [hidem p hmem]
        rw [hl] at h2
        have := List.contains_iff_exists_mem_beq (l := nullSpellings)
            (a := pyLowerStr (pyStripStr s)) |>.mp h2
        rcases this with ⟨a, hmem, hbeq⟩
        have : pyLowerStr (pyStripStr s) = a := by
          exact eq_of_beq hbeq
        rw [this]; exact hmem
    · left
      apply String.ext
      simpa using h1
  · intro h
    rcases h with h | h
    · apply Bool.or_eq_true_iff.mpr
      right
      rw [h]
      rfl
    · apply Bool.or_eq_true_iff.mpr
      left
      apply Bool.or_eq_true_iff.mpr
      right
      have hfix : pyLowerStr (pyLowerStr (pyStripStr s)) = pyLowerStr (pyStripStr s) := by
        have hall : ∀ a ∈ nullSpellings, pyLowerStr a = a := by decide
        exact hall _ h
      rw [hfix]
      apply List.contains_iff_exists_mem_beq.mpr
      exact ⟨_, h, by simp⟩

/-! ### Data model

`Scoreset`, `Variant` rows and the Python values stored on them.  Only the
fields the pipeline reads or writes are modelled (`app/models/scoreset.py` and
`app/models/variant.py` are not part of the pipeline beyond these columns).
-/

/-- A Python value as stored on a scoreset-update payload or inside a
variant's JSON `data` column. -/
inductive PyValue where
  | none
  | str (s : String)
  | int (n : Int)
  | bool (b : Bool)
  | list (l : List PyValue)
  | dict (d : List (String × PyValue))

/-- Python truthiness for the modelled values. -/
def truthy : PyValue → Bool
  | .none => false
  | .str s => !s.data.isEmpty
  | .int n => n != 0
  | .bool b => b
  | .list l => !l.isEmpty
  | .dict d => !d.isEmpty

/-- Python `str(value)` for the modelled values, as far as the exporter needs it
(`str(None) = "None"`; strings are unchanged; integers print in decimal). -/
def pyStr : PyValue → String
  | .none => "None"
  | .str s => s
  | .int n => toString n
  | .bool b => if b then "True" else "False"
  | .list _ => "[...]"
  | .dict _ => "{...}"

/-- Python `str(x)` for an optional string column (`None` prints as `"None"`). -/
def pyStrOpt : Option String → String
  | Option.none => "None"
  | Option.some s => s

/-- The `dataset_columns` JSON of a scoreset. -/
structure DatasetColumns where
  score_columns : List String
  count_columns : List String
deriving Repr

/-- The scoreset row fields the pipeline touches. -/
structure ScoresetRec where
  id : Nat
  urn : String
  priv : Bool
  num_variants : Nat
  dataset_columns : DatasetColumns
  modified_by : Option String
deriving Repr

/-- The two per-variant value maps (`score_data` / `count_data`). -/
structure VariantMaps where
  score_data : List (String × PyValue)
  count_data : List (String × PyValue)

/-- Transient per-variant record produced by the merge step
(`app.lib.scoresets.VariantData`): the keyword arguments passed to the
`Variant` constructor. -/
structure VariantData where
  hgvs_nt : Option String
  hgvs_pro : Option String
  hgvs_splice : Option String
  data : VariantMaps

/-- A persisted variant row. -/
structure VariantRec where
  urn : String
  scoreset_id : Nat
  hgvs_nt : Option String
  hgvs_pro : Option String
  hgvs_splice : Option String
  data : VariantMaps

/-- The durable database state the pipeline touches. -/
structure DB where
  scoresets : List ScoresetRec
  variants : List VariantRec

/-! ### Identifier Assigner (`bulk_create_urns`, scoresets.py lines 300-308) -/

/-- The urn format `"{}#{}".format(parent_urn, n)`. -/
def formatUrn (parent_urn : String) (n : Nat) : String :=
  parent_urn ++ "#" ++ Nat.repr n

/-- The function `bulk_create_urns(n, scoreset, reset_counter=False)`.  The Python function
mutates `scoreset.num_variants`; here the updated scoreset is returned
alongside the urns. -/
def bulk_create_urns (n : Nat) (scoreset : ScoresetRec) (reset_counter : Bool := false) :
    List String × ScoresetRec :=
  let start_value := if reset_counter then 0 else scoreset.num_variants
  let parent_urn := scoreset.urn
  let child_urns := (List.range n).map (fun i => formatUrn parent_urn (start_value + (i + 1)))
  let current_value := start_value + n
  (child_urns, { scoreset with num_variants := current_value })

theorem bulk_create_urns_urns (n : Nat) (s : ScoresetRec) (r : Bool) :
    (bulk_create_urns n s r).1 =
      (List.range' ((if r then 0 else s.num_variants) + 1) n).map (formatUrn s.urn) := by
  unfold bulk_create_urns
  rw [List.range'_eq_map_range, List.map_map]
  apply List.map_congr_left
  intro i _
  show formatUrn s.urn ((if r then 0 else s.num_variants) + (i + 1)) = _
  simp [Function.comp, Nat.add_comm, Nat.add_assoc, Nat.add_left_comm]

theorem bulk_create_urns_counter (n : Nat) (s : ScoresetRec) (r : Bool) :
    (bulk_create_urns n s r).2 =
      { s with num_variants := (if r then 0 else s.num_variants) + n } := rfl

/-! ### Claim C2 -/

/-- Claim C2. With `reset_counter=False`, `bulk_create_urns(n, scoreset)` on a
scoreset whose counter is `c` returns exactly the urns
`"{parent_urn}#{c+1}", …, "{parent_urn}#{c+n}"` in that order and sets
`num_variants` to `c + n`; with `reset_counter=True` it returns
`"{parent_urn}#1", …, "{parent_urn}#{n}"` and sets `num_variants` to `n`. -/
theorem bulk_create_urns_spec (n : Nat) (s : ScoresetRec) :
    (bulk_create_urns n s false =
      ((List.range n).map (fun i => s.urn ++ "#" ++ Nat.repr (s.num_variants + i + 1)),
       { s with num_variants := s.num_variants + n }))
    ∧ (bulk_create_urns n s true =
      ((List.range n).map (fun i => s.urn ++ "#" ++ Nat.repr (i + 1)),
       { s with num_variants := n })) := by
  constructor
  · apply Prod.ext
    · rw [bulk_create_urns_urns, List.range'_eq_map_range, List.map_map]
      apply List.map_congr_left
      intro i _
      show formatUrn s.urn (s.num_variants + 1 + i) = _
      simp [formatUrn, Nat.add_comm, Nat.add_assoc, Nat.add_left_comm]
    · rw [bulk_create_urns_counter]
      simp
  · apply Prod.ext
    · rw [bulk_create_urns_urns, List.range'_eq_map_range, List.map_map]
      apply List.map_congr_left
      intro i _
      show formatUrn s.urn (0 + 1 + i) = _
      simp [formatUrn, Nat.add_comm]
    · rw [bulk_create_urns_counter]
      simp

/-! ### Claim C4: repeated ingestions never reuse a suffix -/

/-- A sequence of ingestions into the same scoreset without counter reset:
each batch of size `k` goes through `create_variants` (scoresets.py line 289),
which calls `bulk_create_urns(k, scoreset)` with the default
`reset_counter=False`.  Returns all urns issued, in order, and the final
scoreset. -/
def runIngestions : ScoresetRec → List Nat → List String × ScoresetRec
  | s, [] => ([], s)
  | s, k :: ks =>
    let p := bulk_create_urns k s
    let rest := runIngestions p.2 ks
    (p.1 ++ rest.1, rest.2)

theorem runIngestions_urn (s : ScoresetRec) (bs : List Nat) :
    (runIngestions s bs).2.urn = s.urn := by
  induction bs generalizing s with
  | nil => rfl
  | cons k ks ih => exact ih _

theorem runIngestions_counter (s : ScoresetRec) (bs : List Nat) :
    (runIngestions s bs).2.num_variants = s.num_variants + bs.sum := by
  induction bs generalizing s with
  | nil => simp [runIngestions]
  | cons k ks ih =>
    show (runIngestions (bulk_create_urns k s).2 ks).2.num_variants = _
    rw [ih, bulk_create_urns_counter]
    show s.num_variants + k + ks.sum = _
    simp [Nat.add_assoc]

theorem runIngestions_urns (s : ScoresetRec) (bs : List Nat) :
    (runIngestions s bs).1 =
      (List.range' (s.num_variants + 1) bs.sum).map (formatUrn s.urn) := by
  induction bs generalizing s with
  | nil => simp [runIngestions]
  | cons k ks ih =>
    show (bulk_create_urns k s).1 ++ (runIngestions (bulk_create_urns k s).2 ks).1 = _
    rw [ih, bulk_create_urns_urns, bulk_create_urns_counter]
    show (List.range' (s.num_variants + 1) k).map (formatUrn s.urn) ++
        (List.range' (s.num_variants + k + 1) ks.sum).map (formatUrn s.urn) = _
    rw [← List.map_append]
    congr 1
    have happ := List.range'_append (s.num_variants + 1) k ks.sum 1
    simp only [Nat.one_mul] at happ
    have h1 : s.num_variants + k + 1 = s.num_variants + 1 + k := by omega
    rw [h1, happ]
    congr 1
    simp [Nat.add_comm]

/-- Claim C4. Across any sequence of ingestions into the same dataset without an
explicit counter reset: the flattened urn list is
`{parent}#(c+1) … {parent}#(c+Σk)`, those suffixes are pairwise distinct (no
suffix is ever issued twice), the counter ends at `c + Σk` and never decreases
along any prefix, and the batch following a prefix `pre` issues exactly
suffixes `c + sum pre + 1 … c + sum pre + k` — i.e. a re-ingestion continues
from the historical counter rather than restarting at 1. -/
theorem ingestion_suffixes_never_reused (s : ScoresetRec) (batches : List Nat) :
    ((runIngestions s batches).1 =
      (List.range' (s.num_variants + 1) batches.sum).map (formatUrn s.urn))
    ∧ (List.range' (s.num_variants + 1) batches.sum).Nodup
    ∧ ((runIngestions s batches).2.num_variants = s.num_variants + batches.sum)
    ∧ (∀ pre post, batches = pre ++ post →
        (runIngestions s pre).2.num_variants ≤ (runIngestions s batches).2.num_variants)
    ∧ (∀ pre k post, batches = pre ++ k :: post →
        (runIngestions ((runIngestions s pre).2) [k]).1 =
          (List.range' (s.num_variants + pre.sum + 1) k).map (formatUrn s.urn)) := by
  refine ⟨runIngestions_urns s batches, List.nodup_range' _ _, runIngestions_counter s batches,
    ?_, ?_⟩
  · intro pre post hsplit
    rw [runIngestions_counter, runIngestions_counter, hsplit, List.sum_append]
    omega
  · intro pre k post hsplit
    rw [runIngestions_urns, runIngestions_counter, runIngestions_urn]
    simp

/-- Witness for C4 at a concrete scoreset and batch sequence `[2, 3]`. -/
theorem ingestion_suffixes_never_reused_witness :
    ((runIngestions ⟨7, "urn:x", false, 4, ⟨[], []⟩, Option.none⟩ [2, 3]).1 =
      (List.range' (4 + 1) ([2, 3] : List Nat).sum).map (formatUrn "urn:x"))
    ∧ (runIngestions ((runIngestions ⟨7, "urn:x", false, 4, ⟨[], []⟩, Option.none⟩ [2]).2)
        [3]).1 =
      (List.range' (4 + ([2] : List Nat).sum + 1) 3).map (formatUrn "urn:x") :=
  ⟨(ingestion_suffixes_never_reused ⟨7, "urn:x", false, 4, ⟨[], []⟩, Option.none⟩ [2, 3]).1,
   (ingestion_suffixes_never_reused ⟨7, "urn:x", false, 4, ⟨[], []⟩, Option.none⟩
      [2, 3]).2.2.2.2 [2] 3 [] rfl⟩

/-! ### Tabular Dataset Loader (scoresets.py lines 201-249)

pandas is modelled at the granularity the pipeline uses it: a raw table is a
column-oriented map from header name to the list of raw string tokens of that
column (text-level CSV concerns — quoting, the `#` comment prefix — are the
parser's, upstream of everything the claims are about).  `read_csv` is called
with `na_values=extra_na_values, keep_default_na=True` and
`dtype={hgvs_nt: str, hgvs_splice: str, hgvs_pro: str, scores: float}`;
columns without a declared dtype get pandas type inference (numeric if every
non-null token parses as a number, else left as text — never an error).
Numeric literals are modelled as rationals; the model covers sign, decimal
point and exponent forms (not `inf`/`nan` spellings, which the na-token sets
capture, nor digit-group underscores). -/

/-- A cell of a parsed table: missing (`NaN`), a number, or text. -/
inductive Cell where
  | na
  | num (q : ℚ)
  | str (s : String)
deriving DecidableEq, Repr

/-- A raw uploaded table: row count and columns of raw string tokens. -/
structure RawTable where
  nRows : Nat
  cols : List (String × List String)

/-- A parsed table. -/
structure DataFrame where
  nRows : Nat
  cols : List (String × List Cell)

def DataFrame.colNames (df : DataFrame) : List String := df.cols.map Prod.fst

def DataFrame.lookupCol (df : DataFrame) (c : String) : Option (List Cell) :=
  (df.cols.find? (fun p => p.1 = c)).map Prod.snd

/-- The list `HGVSColumns.options()` (scoresets.py lines 115-122):
`[NUCLEOTIDE, TRANSCRIPT, PROTEIN]`. -/
def hgvsColumns : List String := ["hgvs_nt", "hgvs_splice", "hgvs_pro"]

/-- Numeric-literal parsing, shared by the float dtype and type inference. -/
def isDigitChar (c : Char) : Bool := 48 ≤ c.toNat && c.toNat ≤ 57

def digitsVal (ds : List Char) : Nat :=
  ds.foldl (fun a c => 10 * a + (c.toNat - 48)) 0

def parseExpDigits (base : ℚ) (neg : Bool) (ds : List Char) : Option ℚ :=
  if ds.isEmpty || !ds.all isDigitChar then none
  else some (if neg then base / 10 ^ digitsVal ds else base * 10 ^ digitsVal ds)

def parseExp (base : ℚ) : List Char → Option ℚ
  | '+' :: ds => parseExpDigits base false ds
  | '-' :: ds => parseExpDigits base true ds
  | ds => parseExpDigits base false ds

def parseUnsigned (cs : List Char) : Option ℚ :=
  let ip := cs.takeWhile isDigitChar
  let rest := cs.dropWhile isDigitChar
  match rest with
  | [] => if ip.isEmpty then none else some (digitsVal ip)
  | '.' :: rest2 =>
    let fp := rest2.takeWhile isDigitChar
    let rest3 := rest2.dropWhile isDigitChar
    if ip.isEmpty && fp.isEmpty then none
    else
      let base : ℚ := (digitsVal ip : ℚ) + (digitsVal fp : ℚ) / 10 ^ fp.length
      match rest3 with
      | [] => some base
      | e :: rest4 => if e = 'e' || e = 'E' then parseExp base rest4 else none
  | e :: rest2 =>
    if (e = 'e' || e = 'E') && !ip.isEmpty then parseExp (digitsVal ip) rest2 else none

/-- A raw token parsed as a float, or `none` if it is not numeric. -/
def parseDecimal (s : String) : Option ℚ :=
  match pyStrip s.data with
  | '+' :: cs => parseUnsigned cs
  | '-' :: cs => (parseUnsigned cs).map Neg.neg
  | cs => parseUnsigned cs

/-- The null-token vocabulary of the external `mavecore` dependency
(`mavecore.validation.constants.null_values_list`), per spec §4.1: the
configurable vocabulary of null spellings. -/
def null_values_list : List String :=
  ["nan", "na", "none", "", "undefined", "n/a", "null", "nil"]

/-- The set `extra_na_values` (scoresets.py lines 201-206): the vocabulary in its
original, lowercase, uppercase and capitalized forms. -/
def extra_na_values : List String :=
  null_values_list ++ null_values_list.map pyLowerStr
    ++ null_values_list.map pyUpperStr ++ null_values_list.map pyCapitalizeStr

/-- pandas' built-in default NA tokens (`keep_default_na=True`). -/
def pandas_default_na : List String :=
  ["", "#N/A", "#N/A N/A", "#NA", "-1.#IND", "-1.#QNAN", "-NaN", "-nan",
   "1.#IND", "1.#QNAN", "<NA>", "N/A", "NA", "NULL", "NaN", "None", "n/a",
   "nan", "null"]

/-- The effective NA-token set of the two `read_csv` calls. -/
def naToken (t : String) : Bool :=
  pandas_default_na.contains t || extra_na_values.contains t

/-- Python exceptions reaching the pipeline. -/
inductive PyErr where
  | attributeError
  | keyError
  | valueError
  | multipleResultsFound
deriving DecidableEq, Repr

/-- The declared dtype of a column in both `read_csv` calls:
`{**{col: str for col in HGVSColumns.options()}, 'scores': float}`
(entries for absent columns are ignored by pandas). -/
inductive DeclaredDtype where
  | dstr
  | dfloat
deriving DecidableEq, Repr

def declaredDtype (name : String) : Option DeclaredDtype :=
  if hgvsColumns.contains name then some .dstr
  else if name = "scores" then some .dfloat
  else none

/-- Parse one column under `dtype=float`: NA tokens become missing, anything
else must be numeric or the whole read fails with `ValueError`. -/
def parseFloatColumn : List String → Except PyErr (List Cell)
  | [] => .ok []
  | t :: ts =>
    if naToken t then
      match parseFloatColumn ts with
      | .error e => .error e
      | .ok cs => .ok (.na :: cs)
    else
      match parseDecimal t with
      | Option.none => .error .valueError
      | Option.some q =>
        match parseFloatColumn ts with
        | .error e => .error e
        | .ok cs => .ok (.num q :: cs)

/-- pandas type inference for a column with no declared dtype: numeric iff
every non-NA token parses as a number; otherwise the tokens stay text. -/
def inferColumn (ts : List String) : List Cell :=
  if ts.all (fun t => naToken t || (parseDecimal t).isSome) then
    ts.map (fun t => if naToken t then .na else .num ((parseDecimal t).getD 0))
  else
    ts.map (fun t => if naToken t then .na else .str t)

def parseColumn (name : String) (ts : List String) : Except PyErr (List Cell) :=
  match declaredDtype name with
  | some .dstr => .ok (ts.map (fun t => if naToken t then .na else .str t))
  | some .dfloat => parseFloatColumn ts
  | none => .ok (inferColumn ts)

def parseCols : List (String × List String) → Except PyErr (List (String × List Cell))
  | [] => .ok []
  | (n, ts) :: rest =>
    match parseColumn n ts with
    | .error e => .error e
    | .ok cs =>
      match parseCols rest with
      | .error e => .error e
      | .ok others => .ok ((n, cs) :: others)

/-- The call `.replace(null_values_re, np.NaN)`: with a non-string replacement value
pandas replaces a whole cell by `NaN` whenever the regex *searches*
successfully inside the string; numeric and missing cells are untouched. -/
def replaceCell : Cell → Cell
  | .str s => if nullRegexSearch s then .na else .str s
  | c => c

/-- The call `pd.read_csv(..., na_values=extra_na_values, keep_default_na=True,
dtype={...}).replace(null_values_re, np.NaN)` (scoresets.py lines 208-222 and
231-245). -/
def read_csv (t : RawTable) : Except PyErr DataFrame :=
  match parseCols t.cols with
  | .error e => .error e
  | .ok cs => .ok ⟨t.nRows, cs.map (fun p => (p.1, p.2.map replaceCell))⟩

/-- One step of `if c not in df.columns: df[c] = np.NaN`: append a column of
`NaN` (broadcast over the current row count) when absent. -/
def ensureCol (d : DataFrame) (c : String) : DataFrame :=
  if d.colNames.contains c then d
  else { d with cols := d.cols ++ [(c, List.replicate d.nRows Cell.na)] }

/-- The loop `for c in HGVSColumns.options(): if c not in df.columns: df[c] = np.NaN`
(scoresets.py lines 223-225 and 246-248). -/
def ensureHgvs (df : DataFrame) : DataFrame :=
  hgvsColumns.foldl ensureCol df

/-- The full per-file load: parse, normalize nulls, synthesize absent
identifier columns. -/
def load_table (t : RawTable) : Except PyErr DataFrame :=
  match read_csv t with
  | .error e => .error e
  | .ok df => .ok (ensureHgvs df)

/-! ### Lemmas about the loader -/

theorem parseFloatColumn_cases (ts : List String) :
    (∃ cs, parseFloatColumn ts = .ok cs) ∨ parseFloatColumn ts = .error .valueError := by
  induction ts with
  | nil => exact Or.inl ⟨[], rfl⟩
  | cons t ts ih =>
    unfold parseFloatColumn
    by_cases hna : naToken t
    · rw [if_pos hna]
      rcases ih with ⟨cs, hcs⟩ | herr
      · rw [hcs]; exact Or.inl ⟨_, rfl⟩
      · rw [herr]; exact Or.inr rfl
    · rw [if_neg hna]
      cases hp : parseDecimal t with
      | none => exact Or.inr rfl
      | some q =>
        rcases ih with ⟨cs, hcs⟩ | herr
        · rw [hcs]; exact Or.inl ⟨_, rfl⟩
        · rw [herr]; exact Or.inr rfl

theorem parseFloatColumn_error (ts : List String) (tok : String)
    (hmem : tok ∈ ts) (hna : naToken tok = false) (hparse : parseDecimal tok = none) :
    parseFloatColumn ts = .error .valueError := by
  induction ts with
  | nil => simp at hmem
  | cons t ts ih =>
    rcases List.mem_cons.mp hmem with h | h
    · subst h
      simp [parseFloatColumn, hna, hparse]
    · unfold parseFloatColumn
      by_cases hbt : naToken t
      · rw [if_pos hbt, ih h]
      · rw [if_neg hbt]
        cases hp : parseDecimal t with
        | none => rfl
        | some q => rw [ih h]

theorem parseColumn_cases (name : String) (ts : List String) :
    (∃ cs, parseColumn name ts = .ok cs) ∨ parseColumn name ts = .error .valueError := by
  unfold parseColumn
  cases hd : declaredDtype name with
  | none => exact Or.inl ⟨_, rfl⟩
  | some d =>
    cases d with
    | dstr => exact Or.inl ⟨_, rfl⟩
    | dfloat => exact parseFloatColumn_cases ts

theorem declaredDtype_scores : declaredDtype "scores" = some .dfloat := by decide

theorem parseCols_error (cols : List (String × List String)) (toks : List String) (tok : String)
    (hcol : ("scores", toks) ∈ cols) (htok : tok ∈ toks)
    (hna : naToken tok = false) (hparse : parseDecimal tok = none) :
    parseCols cols = .error .valueError := by
  induction cols with
  | nil => simp at hcol
  | cons p rest ih =>
    obtain ⟨n, ts⟩ := p
    rcases List.mem_cons.mp hcol with h | h
    · injection h with hn hts
      subst hn
      subst hts
      unfold parseCols
      rw [show parseColumn "scores" toks = .error .valueError by
        unfold parseColumn
        rw [declaredDtype_scores]
        exact parseFloatColumn_error toks tok htok hna hparse]
    · unfold parseCols
      rcases parseColumn_cases n ts with ⟨cs, hp⟩ | hp
      · rw [hp, ih h]
      · rw [hp]

/-! ### Claim C6 -/

/-- Claim C6, counterexample. The claim fails as stated: in the uploaded table
with the single non-identifier column `score` holding the token `"abc"` — a
token that is neither a recognized null token nor numeric — ingestion does
*not* fail; the loader infers the column as text and loads `"abc"` verbatim.
Only a column literally named `scores` carries the float dtype override. -/
theorem nonnumeric_token_loaded_as_text :
    load_table ⟨1, [("score", ["abc"])]⟩ =
      .ok ⟨1, [("score", [Cell.str "abc"]), ("hgvs_nt", [Cell.na]),
               ("hgvs_splice", [Cell.na]), ("hgvs_pro", [Cell.na])]⟩ := by
  rfl

/-- Claim C6, amended. Only for the column literally named `scores` (the one
column the loader's dtype override declares as float) does a cell token that
is neither a recognized null token nor parseable as a number cause the whole
load to fail with a `ValueError`; such a token is never silently ingested as
zero there.  (Other non-identifier columns fall back to pandas type inference
and such a token loads as text — see the counterexample.) -/
theorem scores_column_nonnumeric_rejected (t : RawTable) (toks : List String) (tok : String)
    (hcol : ("scores", toks) ∈ t.cols) (htok : tok ∈ toks)
    (hna : naToken tok = false) (hparse : parseDecimal tok = none) :
    load_table t = .error .valueError ∧ read_csv t = .error .valueError := by
  have h := parseCols_error t.cols toks tok hcol htok hna hparse
  constructor
  · simp [load_table, read_csv, h]
  · simp [read_csv, h]

/-- Witness for C6 (amended) at a concrete one-column table. -/
theorem scores_column_nonnumeric_rejected_witness :
    load_table ⟨1, [("scores", ["abc"])]⟩ = .error .valueError
    ∧ read_csv ⟨1, [("scores", ["abc"])]⟩ = .error .valueError :=
  scores_column_nonnumeric_rejected ⟨1, [("scores", ["abc"])]⟩ ["abc"] "abc"
    (by simp) (by simp) (by decide) (by decide)

/-! ### Lemmas about `ensureCol` -/

theorem ensureCol_nRows (d : DataFrame) (c : String) : (ensureCol d c).nRows = d.nRows := by
  unfold ensureCol
  split <;> rfl

theorem lookupCol_isSome_of_contains (d : DataFrame) (c : String)
    (h : d.colNames.contains c = true) : (d.lookupCol c).isSome := by
  unfold DataFrame.lookupCol
  rcases List.elem_iff.mp h with hmem
  rcases List.mem_map.mp hmem with ⟨p, hp, hpc⟩
  have : d.cols.find? (fun q => q.1 = c) |>.isSome := by
    rw [List.find?_isSome]
    exact ⟨p, hp, by simp [hpc]⟩
  cases hfind : d.cols.find? (fun q => q.1 = c) with
  | none => rw [hfind] at this; simp at this
  | some q => simp

theorem lookupCol_ensureCol_self (d : DataFrame) (c : String) :
    ((ensureCol d c).lookupCol c).isSome := by
  unfold ensureCol
  by_cases h : d.colNames.contains c
  · rw [if_pos h]
    exact lookupCol_isSome_of_contains d c h
  · rw [if_neg h]
    unfold DataFrame.lookupCol
    rw [List.find?_append]
    cases hfind : d.cols.find? (fun q => q.1 = c) with
    | none => simp
    | some q => simp

theorem contains_false_not_mem (l : List String) (a : String)
    (h : l.contains a = false) : a ∉ l := by
  intro hm
  have h2 : l.contains a = true := List.elem_iff.mpr hm
  rw [h] at h2
  cases h2

theorem not_mem_contains_false (l : List String) (a : String)
    (h : a ∉ l) : l.contains a = false := by
  cases hc : l.contains a with
  | false => rfl
  | true => exact absurd (List.elem_iff.mp hc) h

theorem find?_eq_none_of_not_contains (d : DataFrame) (c : String)
    (h : d.colNames.contains c = false) :
    d.cols.find? (fun q => q.1 = c) = none := by
  rw [List.find?_eq_none]
  intro p hp hpc
  apply contains_false_not_mem _ _ h
  apply List.mem_map.mpr
  exact ⟨p, hp, by simpa using hpc⟩

theorem lookupCol_ensureCol_absent (d : DataFrame) (c : String)
    (h : d.colNames.contains c = false) :
    (ensureCol d c).lookupCol c = some (List.replicate d.nRows Cell.na) := by
  unfold ensureCol
  rw [if_neg (show ¬ d.colNames.contains c = true by rw [h]; simp)]
  unfold DataFrame.lookupCol
  rw [List.find?_append, find?_eq_none_of_not_contains d c h]
  simp

theorem lookupCol_ensureCol_other (d : DataFrame) (c c' : String) (hne : c' ≠ c) :
    (ensureCol d c).lookupCol c' = d.lookupCol c' := by
  unfold ensureCol
  by_cases h : d.colNames.contains c
  · rw [if_pos h]
  · rw [if_neg h]
    unfold DataFrame.lookupCol
    rw [List.find?_append]
    have : ([(c, List.replicate d.nRows Cell.na)].find? (fun q => q.1 = c')) = none := by
      simp [hne, Ne.symm hne]
    rw [this]
    cases hfind : d.cols.find? (fun q => q.1 = c') <;> simp

theorem colNames_ensureCol (d : DataFrame) (c c' : String)
    (h : d.colNames.contains c' = false) (hne : c ≠ c') :
    (ensureCol d c).colNames.contains c' = false := by
  unfold ensureCol
  by_cases hc : d.colNames.contains c
  · rw [if_pos hc]; exact h
  · rw [if_neg hc]
    apply not_mem_contains_false
    intro hm
    have hm2 : c' ∈ d.colNames ++ [c] := by
      simpa [DataFrame.colNames, List.map_append] using hm
    rcases List.mem_append.mp hm2 with hmem | hmem
    · exact contains_false_not_mem _ _ h hmem
    · simp at hmem
      exact hne hmem.symm

/-! ### Claim C7 -/

/-- Claim C7. Whenever the raw parse of an uploaded table succeeds, the loader
as a whole succeeds — an absent identifier column is never an error — and each
of the three identifier columns `hgvs_nt`, `hgvs_splice`, `hgvs_pro` is
present in the loaded table, with any column that was absent from the input
synthesized as the missing value for every row. -/
theorem absent_hgvs_synthesized (t : RawTable) (df : DataFrame)
    (h : read_csv t = .ok df) :
    load_table t = .ok (ensureHgvs df)
    ∧ ∀ c, c ∈ hgvsColumns →
        ((ensureHgvs df).lookupCol c).isSome
        ∧ (df.colNames.contains c = false →
            (ensureHgvs df).lookupCol c = some (List.replicate df.nRows Cell.na)) := by
  constructor
  · simp [load_table, h]
  · intro c hc
    have hunf : ensureHgvs df =
        ensureCol (ensureCol (ensureCol df "hgvs_nt") "hgvs_splice") "hgvs_pro" := rfl
    have hr1 : (ensureCol df "hgvs_nt").nRows = df.nRows := ensureCol_nRows ..
    have hr2 : (ensureCol (ensureCol df "hgvs_nt") "hgvs_splice").nRows = df.nRows := by
      rw [ensureCol_nRows, hr1]
    simp only [hgvsColumns, List.mem_cons, List.not_mem_nil, or_false] at hc
    rcases hc with hc | hc | hc
    · subst hc
      rw [hunf]
      rw [lookupCol_ensureCol_other _ _ _ (by decide),
          lookupCol_ensureCol_other _ _ _ (by decide)]
      refine ⟨lookupCol_ensureCol_self df "hgvs_nt", ?_⟩
      intro habs
      exact lookupCol_ensureCol_absent df "hgvs_nt" habs
    · subst hc
      rw [hunf]
      rw [lookupCol_ensureCol_other _ _ _ (by decide)]
      refine ⟨lookupCol_ensureCol_self _ "hgvs_splice", ?_⟩
      intro habs
      have habs1 : (ensureCol df "hgvs_nt").colNames.contains "hgvs_splice" = false :=
        colNames_ensureCol df _ _ habs (by decide)
      rw [lookupCol_ensureCol_absent _ "hgvs_splice" habs1, hr1]
    · subst hc
      rw [hunf]
      refine ⟨lookupCol_ensureCol_self _ "hgvs_pro", ?_⟩
      intro habs
      have habs1 : (ensureCol df "hgvs_nt").colNames.contains "hgvs_pro" = false :=
        colNames_ensureCol df _ _ habs (by decide)
      have habs2 : (ensureCol (ensureCol df "hgvs_nt") "hgvs_splice").colNames.contains
          "hgvs_pro" = false :=
        colNames_ensureCol _ _ _ habs1 (by decide)
      rw [lookupCol_ensureCol_absent _ "hgvs_pro" habs2, hr2]

/-- Witness for C7 at a two-row table that has none of the identifier
columns. -/
theorem absent_hgvs_synthesized_witness :
    load_table ⟨2, [("x", ["a", "b"])]⟩ =
      .ok (ensureHgvs ⟨2, [("x", [Cell.str "a", Cell.str "b"])]⟩)
    ∧ (ensureHgvs ⟨2, [("x", [Cell.str "a", Cell.str "b"])]⟩).lookupCol "hgvs_pro" =
        some (List.replicate 2 Cell.na) :=
  ⟨(absent_hgvs_synthesized ⟨2, [("x", ["a", "b"])]⟩
      ⟨2, [("x", [Cell.str "a", Cell.str "b"])]⟩ (by rfl)).1,
   ((absent_hgvs_synthesized ⟨2, [("x", ["a", "b"])]⟩
      ⟨2, [("x", [Cell.str "a", Cell.str "b"])]⟩ (by rfl)).2 "hgvs_pro"
      (by decide)).2 (by decide)⟩

/-! ### Tabular Exporter (`format_csv_rows`, scoresets.py lines 334-372) -/

/-- The `dtype` argument of `format_csv_rows`: which data-category map of the
variant to read (`'score_data'` or `'count_data'`). -/
inductive DataCategory where
  | score_data
  | count_data
deriving DecidableEq, Repr

/-- Python dict lookup (`m[k]`) as an option. -/
def lookupAssoc (m : List (String × PyValue)) (k : String) : Option PyValue :=
  (m.find? (fun p => p.1 = k)).map Prod.snd

/-- Python `variant.data[dtype]`. -/
def VariantRec.dataOf (v : VariantRec) : DataCategory → List (String × PyValue)
  | .score_data => v.data.score_data
  | .count_data => v.data.count_data

/-- The raw cell value before null replacement (the if/elif chain of
scoresets.py lines 358-367); `variant.data[dtype][column_key]` raises
`KeyError` when the column is absent from the map. -/
def formatCell (variant : VariantRec) (dtype : DataCategory) (column_key : String) :
    Except PyErr String :=
  if column_key = "hgvs_nt" then .ok (pyStrOpt variant.hgvs_nt)
  else if column_key = "hgvs_pro" then .ok (pyStrOpt variant.hgvs_pro)
  else if column_key = "hgvs_splice" then .ok (pyStrOpt variant.hgvs_splice)
  else if column_key = "accession" then .ok variant.urn
  else
    match lookupAssoc (variant.dataOf dtype) column_key with
    | Option.none => .error .keyError
    | Option.some d => .ok (pyStr d)

/-- One row of the export: the inner `for column_key in columns` loop,
including the `if is_null(value): value = na_rep` replacement. -/
def formatRow (variant : VariantRec) (dtype : DataCategory) (na_rep : String) :
    List String → Except PyErr (List (String × String))
  | [] => .ok []
  | c :: cs =>
    match formatCell variant dtype c with
    | .error e => .error e
    | .ok raw =>
      match formatRow variant dtype na_rep cs with
      | .error e => .error e
      | .ok rest => .ok ((c, if is_null raw then na_rep else raw) :: rest)

/-- The function `format_csv_rows(variants, columns, dtype, na_rep="NA")`: one dictionary
row per variant, in input order. -/
def format_csv_rows (variants : List VariantRec) (columns : List String)
    (dtype : DataCategory) (na_rep : String := "NA") :
    Except PyErr (List (List (String × String))) :=
  match variants with
  | [] => .ok []
  | v :: vs =>
    match formatRow v dtype na_rep columns with
    | .error e => .error e
    | .ok row =>
      match format_csv_rows vs columns dtype na_rep with
      | .error e => .error e
      | .ok rows => .ok (row :: rows)

/-- The four column names the exporter reads from the variant itself rather
than from a data-category map. -/
def specialColumns : List String := ["hgvs_nt", "hgvs_pro", "hgvs_splice", "accession"]

/-- The cell contents as the spec sentence describes them (spec §4.6): the
identifier triple and the urn come from the variant, every other column from
the selected data-category map (absent modelled by a default, compared
against the code under a presence hypothesis), and any value whose
stringification the Null Normalizer classifies as missing renders as the
sentinel. -/
def specCell (v : VariantRec) (dtype : DataCategory) (na_rep : String) (c : String) : String :=
  let raw :=
    if c = "hgvs_nt" then pyStrOpt v.hgvs_nt
    else if c = "hgvs_pro" then pyStrOpt v.hgvs_pro
    else if c = "hgvs_splice" then pyStrOpt v.hgvs_splice
    else if c = "accession" then v.urn
    else pyStr ((lookupAssoc (v.dataOf dtype) c).getD (PyValue.str ""))
  if is_null raw then na_rep else raw

theorem formatRow_spec (v : VariantRec) (dtype : DataCategory) (columns : List String)
    (hv : ∀ c ∈ columns, c ∉ specialColumns → (lookupAssoc (v.dataOf dtype) c).isSome) :
    formatRow v dtype "NA" columns =
      .ok (columns.map (fun c => (c, specCell v dtype "NA" c))) := by
  induction columns with
  | nil => rfl
  | cons c cs ihc =>
    have htail : formatRow v dtype "NA" cs =
        .ok (cs.map (fun c => (c, specCell v dtype "NA" c))) :=
      ihc (fun c' h' hs => hv c' (List.mem_cons_of_mem c h') hs)
    unfold formatRow
    by_cases h1 : c = "hgvs_nt"
    · simp [formatCell, specCell, h1, htail]
    · by_cases h2 : c = "hgvs_pro"
      · simp [formatCell, specCell, h1, h2, htail]
      · by_cases h3 : c = "hgvs_splice"
        · simp [formatCell, specCell, h1, h2, h3, htail]
        · by_cases h4 : c = "accession"
          · simp [formatCell, specCell, h1, h2, h3, h4, htail]
          · have hns : c ∉ specialColumns := by
              simp [specialColumns, h1, h2, h3, h4]
            have := hv c (List.mem_cons_self c cs) hns
            cases hd : lookupAssoc (v.dataOf dtype) c with
            | none => rw [hd] at this; simp at this
            | some d => simp [formatCell, specCell, h1, h2, h3, h4, hd, htail]

/-! ### Claim C5 -/

/-- Claim C5, counterexample. The claim fails as stated: for a variant whose
`score_data` map is empty and the requested column `"score"`, the exporter
does not render the sentinel `"NA"` — `variant.data['score_data']['score']`
raises `KeyError`, so no rows are produced at all. -/
theorem export_missing_column_keyerror :
    format_csv_rows [⟨"urn:z#1", 1, Option.none, Option.none, Option.none, ⟨[], []⟩⟩]
        ["score"] .score_data "NA" = .error .keyError
    ∧ format_csv_rows [⟨"urn:z#1", 1, Option.none, Option.none, Option.none, ⟨[], []⟩⟩]
        ["score"] .score_data "NA" ≠ .ok [[("score", "NA")]] := by
  constructor
  · rfl
  · intro h
    rw [show format_csv_rows [⟨"urn:z#1", 1, Option.none, Option.none, Option.none, ⟨[], []⟩⟩]
        ["score"] DataCategory.score_data "NA" = Except.error PyErr.keyError from rfl] at h
    cases h

/-- Claim C5, amended. For every list of variants and every requested column
list *whose non-identifier, non-accession columns are all present in each
variant's selected data-category map*, the exporter produces one row per
variant in input order; the `accession` column holds the variant's urn, the
`hgvs_nt`/`hgvs_pro`/`hgvs_splice` columns hold the identifier triple, every
other column holds the value from the selected map, and any cell whose
stringified value the Null Normalizer classifies as missing is rendered as
the sentinel `"NA"`.  A column absent from a variant's map is a `KeyError`,
not a sentinel (see the counterexample). -/
theorem format_csv_rows_spec (variants : List VariantRec) (columns : List String)
    (dtype : DataCategory)
    (h : ∀ v ∈ variants, ∀ c ∈ columns, c ∉ specialColumns →
      (lookupAssoc (v.dataOf dtype) c).isSome) :
    format_csv_rows variants columns dtype "NA" =
      .ok (variants.map (fun v => columns.map (fun c => (c, specCell v dtype "NA" c)))) := by
  induction variants with
  | nil => rfl
  | cons v vs ih =>
    have hrow := formatRow_spec v dtype columns (h v (List.mem_cons_self v vs))
    have htail := ih (fun v' h' => h v' (List.mem_cons_of_mem v h'))
    unfold format_csv_rows
    rw [hrow, htail]
    rfl

/-- Witness for C5 (amended) at a concrete variant and column list. -/
theorem format_csv_rows_spec_witness :
    format_csv_rows
        [⟨"urn:z#1", 1, Option.some "c.1A>G", Option.none, Option.none,
          ⟨[("score", PyValue.str "1.2")], []⟩⟩]
        ["accession", "hgvs_nt", "hgvs_pro", "score"] .score_data "NA" =
      .ok ([⟨"urn:z#1", 1, Option.some "c.1A>G", Option.none, Option.none,
          ⟨[("score", PyValue.str "1.2")], []⟩⟩].map
        (fun v => ["accession", "hgvs_nt", "hgvs_pro", "score"].map
          (fun c => (c, specCell v .score_data "NA" c)))) :=
  format_csv_rows_spec _ _ _ (by decide)

/-! ### Upload endpoint and the session model
(`upload_scoreset_variant_data`, scoresets.py lines 181-282)

The endpoint runs inside one SQLAlchemy session created per request with
`autocommit=False, autoflush=False` (`app/db/session.py`): every write —
`bulk_save_objects`, `add`, attribute mutation on a loaded row — stays inside
the session's open transaction and becomes durable (visible to any other
request, including a retry) only at `db.commit()`.  `PState` is that session:
the durable `db`, the loaded scoreset row `item` with its in-transaction
mutations, and the `pending` variant inserts.  `app.lib.scoresets
.create_variants_data` (the Dataset Merger) is not part of this file's
source; the endpoint model takes it as a function argument.
-/

structure PState where
  db : DB
  item : ScoresetRec
  pending : List VariantRec

/-- The constructor call `Variant(urn=urn, scoreset_id=scoreset.id, **kwargs)`. -/
def mkVariantRec (sid : Nat) (urn : String) (d : VariantData) : VariantRec :=
  ⟨urn, sid, d.hgvs_nt, d.hgvs_pro, d.hgvs_splice, d.data⟩

/-- The function `create_variants(db, scoreset, variants_data)` (scoresets.py lines
287-296): mint urns (advancing the in-session counter), build the `Variant`
objects and buffer them in the transaction.  The Python function's return
value `len(scoreset.variants)` is unused by the caller and not modelled. -/
def create_variants (st : PState) (variants_data : List VariantData) : PState :=
  let p := bulk_create_urns variants_data.length st.item
  let variants := (p.1.zip variants_data).map (fun q => mkVariantRec st.item.id q.1 q.2)
  { st with item := p.2, pending := st.pending ++ variants }

/-- The assignments `item.dataset_columns = {...}; item.modified_by = user; db.add(item)`
(scoresets.py lines 264-269). -/
def setManifest (score_columns count_columns : List String) (user : String)
    (st : PState) : PState :=
  { st with item := { st.item with
      dataset_columns := ⟨score_columns, count_columns⟩,
      modified_by := Option.some user } }

/-- The call `db.commit()` (scoresets.py line 280): atomically publish the dirty
scoreset row and the buffered variant inserts. -/
def commitSession (st : PState) : DB :=
  ⟨st.db.scoresets.map (fun s => if s.id = st.item.id then st.item else s),
   st.db.variants ++ st.pending⟩

/-- The session state after the first `k` state-affecting steps of the
persistence phase (`k = 0`: before `create_variants`; `k = 1`: after it;
`k ≥ 2`: after the manifest/metadata assignment — in every case before
`db.commit()`).  A failure injected there abandons the session: the
transaction rolls back and only `.db` survives. -/
def persistUpTo (st : PState) (variants_data : List VariantData)
    (score_columns count_columns : List String) (user : String) : Nat → PState
  | 0 => st
  | 1 => create_variants st variants_data
  | _ => setManifest score_columns count_columns user (create_variants st variants_data)

/-- The query `query(Scoreset).filter(Scoreset.urn == urn).filter(Scoreset.private.is_(False))`. -/
def queryPublicScoreset (db : DB) (urn : String) : List ScoresetRec :=
  db.scoresets.filter (fun s => s.urn = urn && s.priv = false)

/-- SQLAlchemy `Query.one_or_none()`. -/
def one_or_none (l : List ScoresetRec) : Except PyErr (Option ScoresetRec) :=
  match l with
  | [] => .ok Option.none
  | [a] => .ok (Option.some a)
  | _ => .error .multipleResultsFound

/-- What the endpoint hands back on the non-exceptional paths: the bare
`return None` of line 199, or the refreshed scoreset of line 282. -/
inductive UploadOutcome where
  | retNone
  | finished (item : ScoresetRec)

/-- The endpoint body, lines 197-282.  The result pairs the returned value
(or the exception) with the durable database after the request: every
exceptional exit happens before `db.commit()`, so the transaction rolls back
to the incoming `db`. -/
def upload_scoreset_variant_data (db : DB) (urn : String) (scores_file : RawTable)
    (counts_file : Option RawTable)
    (create_variants_data : DataFrame → Option DataFrame → List VariantData)
    (user : String) : Except PyErr UploadOutcome × DB :=
  match one_or_none (queryPublicScoreset db urn) with
  | .error e => (.error e, db)
  | .ok Option.none => (.error .attributeError, db)
  | .ok (Option.some item) =>
    if item.urn = "" then (.ok .retNone, db)
    else
      match load_table scores_file with
      | .error e => (.error e, db)
      | .ok scores_df =>
        let score_columns := scores_df.colNames.filter (fun c => !hgvsColumns.contains c)
        match (match counts_file with
               | Option.none => Except.ok (Option.none, ([] : List String))
               | Option.some ct =>
                 match load_table ct with
                 | .error e => .error e
                 | .ok cdf =>
                   .ok (Option.some cdf,
                        cdf.colNames.filter (fun c => !hgvsColumns.contains c))) with
        | .error e => (.error e, db)
        | .ok (counts_df, count_columns) =>
          let variants_data := create_variants_data scores_df counts_df
          let st1 := create_variants ⟨db, item, []⟩ variants_data
          let st2 := setManifest score_columns count_columns user st1
          (.ok (.finished st2.item), commitSession st2)

/-! ### Claim C9 -/

/-- Claim C9. If no scoreset with `private == False` matches the urn, the
upload raises an unhandled `AttributeError` (`item.urn` on `None`, line 198):
the result is the same for *every* file argument — no uploaded file is ever
parsed — and the durable database is returned unchanged, rather than a
structured not-found response. -/
theorem upload_missing_scoreset_unhandled (db : DB) (urn : String)
    (h : queryPublicScoreset db urn = []) :
    ∀ (scores_file scores_file' : RawTable) (counts_file counts_file' : Option RawTable)
      (merge merge' : DataFrame → Option DataFrame → List VariantData) (user user' : String),
      upload_scoreset_variant_data db urn scores_file counts_file merge user =
        (.error .attributeError, db)
      ∧ upload_scoreset_variant_data db urn scores_file counts_file merge user =
          upload_scoreset_variant_data db urn scores_file' counts_file' merge' user' := by
  intro sf sf' cf cf' m m' u u'
  unfold upload_scoreset_variant_data
  rw [h]
  exact ⟨rfl, rfl⟩

/-- Witness for C9 on an empty database. -/
theorem upload_missing_scoreset_unhandled_witness :
    upload_scoreset_variant_data ⟨[], []⟩ "urn:q" ⟨0, []⟩ Option.none (fun _ _ => []) "u" =
      (.error .attributeError, ⟨[], []⟩) :=
  (upload_missing_scoreset_unhandled ⟨[], []⟩ "urn:q" rfl ⟨0, []⟩ ⟨0, []⟩
    Option.none Option.none (fun _ _ => []) (fun _ _ => []) "u" "u").1

/-! ### Claim C3 -/

/-- Claim C3. Failure atomicity.  (i) A failure injected at any point of the
persistence phase strictly before `db.commit()` — after zero, one, or both
state-affecting steps — leaves the durable database exactly as before the
call, so a retry observes the original `num_variants`, `dataset_columns` and
variant set; no partial counter advance survives.  (ii) Every exceptional
exit of the endpoint itself returns the durable database unchanged. -/
theorem upload_failure_atomic (db : DB) (item : ScoresetRec)
    (variants_data : List VariantData) (score_columns count_columns : List String)
    (user : String) (k : Nat) (hk : k ≤ 2) :
    (persistUpTo ⟨db, item, []⟩ variants_data score_columns count_columns user k).db = db
    ∧ (∀ urn scores_file counts_file merge u e,
        (upload_scoreset_variant_data db urn scores_file counts_file merge u).1 = .error e →
        (upload_scoreset_variant_data db urn scores_file counts_file merge u).2 = db) := by
  constructor
  · interval_cases k <;> rfl
  · intro urn sf cf merge u e herr
    unfold upload_scoreset_variant_data at herr ⊢
    cases hq : one_or_none (queryPublicScoreset db urn) with
    | error e' => simp [hq]
    | ok o =>
      cases o with
      | none => simp [hq]
      | some it =>
        by_cases hurn : it.urn = ""
        · simp [hq, hurn]
        · cases hl : load_table sf with
          | error e' => simp [hq, hurn, hl]
          | ok sdf =>
            cases cf with
            | none => simp [hq, hurn, hl] at herr
            | some ct =>
              cases hc : load_table ct with
              | error e' => simp [hq, hurn, hl, hc]
              | ok cdf => simp [hq, hurn, hl, hc] at herr

/-- Witness for C3: failure after the urn-minting step on a concrete session,
and a concrete erroring endpoint call. -/
theorem upload_failure_atomic_witness :
    (persistUpTo ⟨⟨[], []⟩, ⟨1, "urn:w", false, 0, ⟨[], []⟩, Option.none⟩, []⟩
        [] [] [] "u" 1).db = ⟨[], []⟩
    ∧ (upload_scoreset_variant_data ⟨[], []⟩ "urn:w" ⟨0, []⟩ Option.none
        (fun _ _ => []) "u").2 = ⟨[], []⟩ :=
  ⟨(upload_failure_atomic ⟨[], []⟩ ⟨1, "urn:w", false, 0, ⟨[], []⟩, Option.none⟩
      [] [] [] "u" 1 (by decide)).1,
   (upload_failure_atomic ⟨[], []⟩ ⟨1, "urn:w", false, 0, ⟨[], []⟩, Option.none⟩
      [] [] [] "u" 1 (by decide)).2 "urn:w" ⟨0, []⟩ Option.none
      (fun _ _ => []) "u" .attributeError (by rfl)⟩

/-! ### Claim C1 -/

/-- Claim C1, the code evaluated at the failing input. A dataset that already has
the persisted variant `urn:ex:1#1` receives a new one-variant upload that
succeeds — yet afterwards the old variant is still present alongside the new
`urn:ex:1#2`: the deletion step is absent (`#self.instance.delete_variants()`
is commented out at scoresets.py line 259, although line 258 logs `'Deleting
existing variants'`), so the variant set is *not* replaced. -/
theorem upload_retains_old_variants :
    (upload_scoreset_variant_data
        ⟨[⟨1, "urn:ex:1", false, 1, ⟨["score"], []⟩, Option.none⟩],
         [⟨"urn:ex:1#1", 1, Option.some "c.1A>G", Option.none, Option.none,
           ⟨[("score", PyValue.int 1)], []⟩⟩]⟩
        "urn:ex:1" ⟨1, [("score", ["2"])]⟩ Option.none
        (fun _ _ => [⟨Option.some "c.2A>G", Option.none, Option.none,
          ⟨[("score", PyValue.int 2)], []⟩⟩]) "u").2.variants =
      [⟨"urn:ex:1#1", 1, Option.some "c.1A>G", Option.none, Option.none,
        ⟨[("score", PyValue.int 1)], []⟩⟩,
       ⟨"urn:ex:1#2", 1, Option.some "c.2A>G", Option.none, Option.none,
        ⟨[("score", PyValue.int 2)], []⟩⟩] := by
  rfl

/-! ### Scoreset update (`update_scoreset`, scoresets.py lines 311-331)

The update loop
`for var, value in vars(item_update).items(): setattr(item, var, value) if value else None`
operates on the attribute dictionaries of the payload and of the loaded row;
both are modelled as association lists from attribute name to `PyValue`
(`vars()` of a pydantic model has pairwise-distinct keys). -/

/-- Python `setattr(item, var, value)`: replace the attribute, or add it. -/
def setattrVal : List (String × PyValue) → String → PyValue → List (String × PyValue)
  | [], k, v => [(k, v)]
  | p :: ps, k, v => if p.1 = k then (k, v) :: ps else p :: setattrVal ps k v

/-- Python `getattr(item, var)` as an option. -/
def getattrVal (obj : List (String × PyValue)) (k : String) : Option PyValue :=
  (obj.find? (fun p => p.1 = k)).map Prod.snd

/-- The update loop of scoresets.py lines 326-327. -/
def update_scoreset (item payload : List (String × PyValue)) :
    List (String × PyValue) :=
  payload.foldl (fun it p => if truthy p.2 then setattrVal it p.1 p.2 else it) item

theorem getattrVal_setattrVal_same (o : List (String × PyValue)) (k : String) (v : PyValue) :
    getattrVal (setattrVal o k v) k = Option.some v := by
  induction o with
  | nil => simp [setattrVal, getattrVal]
  | cons p ps ih =>
    unfold setattrVal
    by_cases h : p.1 = k
    · rw [if_pos h]
      simp [getattrVal]
    · rw [if_neg h]
      unfold getattrVal at ih ⊢
      rw [List.find?_cons_of_neg _ (by simpa using h)]
      exact ih

theorem getattrVal_setattrVal_other (o : List (String × PyValue)) (k k' : String)
    (v : PyValue) (hne : k' ≠ k) :
    getattrVal (setattrVal o k v) k' = getattrVal o k' := by
  induction o with
  | nil => simp [setattrVal, getattrVal, hne, Ne.symm hne]
  | cons p ps ih =>
    unfold setattrVal
    by_cases h : p.1 = k
    · rw [if_pos h]
      unfold getattrVal
      rw [List.find?_cons_of_neg _ (by simpa using Ne.symm hne),
          List.find?_cons_of_neg _ (by simp [h, Ne.symm hne])]
    · rw [if_neg h]
      unfold getattrVal at ih ⊢
      by_cases hk' : p.1 = k'
      · rw [List.find?_cons_of_pos _ (by simpa using hk'),
            List.find?_cons_of_pos _ (by simpa using hk')]
      · rw [List.find?_cons_of_neg _ (by simpa using hk'),
            List.find?_cons_of_neg _ (by simpa using hk')]
        exact ih

theorem getattrVal_eq_none (obj : List (String × PyValue)) (k : String)
    (h : k ∉ obj.map Prod.fst) : getattrVal obj k = Option.none := by
  unfold getattrVal
  rw [List.find?_eq_none.mpr]
  · rfl
  · intro p hp hpk
    exact h (List.mem_map.mpr ⟨p, hp, by simpa using hpk⟩)

theorem update_scoreset_lookup (payload : List (String × PyValue))
    (item : List (String × PyValue))
    (hkeys : (payload.map Prod.fst).Nodup) (k : String) :
    getattrVal (update_scoreset item payload) k =
      match getattrVal payload k with
      | Option.some v => if truthy v then Option.some v else getattrVal item k
      | Option.none => getattrVal item k := by
  induction payload generalizing item with
  | nil => rfl
  | cons p ps ih =>
    obtain ⟨k0, v0⟩ := p
    have hkeys' : (k0 :: ps.map Prod.fst).Nodup := by simpa using hkeys
    have hk0 : k0 ∉ ps.map Prod.fst := (List.nodup_cons.mp hkeys').1
    have hnd : (ps.map Prod.fst).Nodup := (List.nodup_cons.mp hkeys').2
    show getattrVal
        (update_scoreset (if truthy v0 then setattrVal item k0 v0 else item) ps) k = _
    rw [ih _ hnd]
    by_cases hkk : k = k0
    · subst hkk
      have hpsk : getattrVal ps k = Option.none := getattrVal_eq_none ps k hk0
      have hhead : getattrVal ((k, v0) :: ps) k = Option.some v0 := by
        simp [getattrVal]
      by_cases ht : truthy v0
      · simp [hpsk, hhead, ht, getattrVal_setattrVal_same]
      · simp [hpsk, hhead, ht]
    · have hhead : getattrVal ((k0, v0) :: ps) k = getattrVal ps k := by
        unfold getattrVal
        rw [List.find?_cons_of_neg _ (by simpa using Ne.symm hkk)]
      rw [hhead]
      by_cases ht : truthy v0
      · cases hcase : getattrVal ps k with
        | none => simp [ht, hcase, getattrVal_setattrVal_other item k0 k v0 hkk]
        | some v' => simp [ht, hcase, getattrVal_setattrVal_other item k0 k v0 hkk]
      · simp [ht]

/-! ### Claim C10 -/

/-- Claim C10. For every scoreset update with pairwise-distinct payload keys:
an attribute of the result reads as the payload's value when the payload
gives it a truthy value, and as the stored item's value otherwise (payload
value falsy, or attribute not in the payload) — falsy fields are skipped and
the stored field is left unchanged.  Consequently `update_scoreset` can never
set a stored field to a falsy (`None`/empty/zero/false) value: if the result
holds a falsy value, the item already held exactly that value. -/
theorem update_scoreset_skips_falsy (item payload : List (String × PyValue))
    (hkeys : (payload.map Prod.fst).Nodup) (k : String) :
    (getattrVal (update_scoreset item payload) k =
      match getattrVal payload k with
      | Option.some v => if truthy v then Option.some v else getattrVal item k
      | Option.none => getattrVal item k)
    ∧ (∀ v, getattrVal (update_scoreset item payload) k = Option.some v →
        truthy v = false → getattrVal item k = Option.some v) := by
  have heq := update_scoreset_lookup payload item hkeys k
  refine ⟨heq, ?_⟩
  intro v hv htr
  rw [heq] at hv
  cases hcase : getattrVal payload k with
  | none => rw [hcase] at hv; exact hv
  | some v' =>
    rw [hcase] at hv
    by_cases ht : truthy v'
    · simp [ht] at hv
      subst hv
      rw [ht] at htr
      cases htr
    · simp [ht] at hv
      exact hv

/-- Witness for C10: a payload whose `urn` field is the empty string leaves
the stored `urn` untouched while the truthy `title` is applied. -/
theorem update_scoreset_skips_falsy_witness :
    (getattrVal (update_scoreset
        [("title", PyValue.str "Old"), ("urn", PyValue.str "urn:1")]
        [("title", PyValue.str "New"), ("urn", PyValue.str "")]) "urn" =
      match getattrVal [("title", PyValue.str "New"), ("urn", PyValue.str "")] "urn" with
      | Option.some v => if truthy v then Option.some v else
          getattrVal [("title", PyValue.str "Old"), ("urn", PyValue.str "urn:1")] "urn"
      | Option.none =>
          getattrVal [("title", PyValue.str "Old"), ("urn", PyValue.str "urn:1")] "urn") :=
  (update_scoreset_skips_falsy
    [("title", PyValue.str "Old"), ("urn", PyValue.str "urn:1")]
    [("title", PyValue.str "New"), ("urn", PyValue.str "")] (by decide) "urn").1
